import Mathlib

/-!
Verification of the WebGuardAI threat-scoring fusion engine and batch-analysis
pipeline, embedded from `src/WebGaurdAI/threat-detection.py` and
`src/WebGaurdAI/api-backend.py`.

Conventions of the embedding:
* Python floats carrying scores and weights are embedded as rationals (`ℚ`);
  the arithmetic in the source (sums, products, comparisons against the
  literals 0.2 / 0.5 / 0.8) is exact on the inputs the claims quantify over.
* `numpy.std` involves a real square root, so the confidence value lives in
  `Option ℝ`: `none` models an IEEE non-finite outcome (NaN/inf), which is
  what a float division by zero produces; `some c` models a finite float.
* Fallible Python calls (crawl, feature extraction, persistence) are embedded
  as `Except`-valued collaborator functions; an uncaught exception in a FastAPI
  handler that is converted to `HTTPException(500)` is embedded as
  `Except.error 500`.
* `store_batch_results`, `load_batch_results` and `send_callback` are called
  by `api-backend.py` but defined nowhere in the repository; they are modelled
  from the spec (JobStore `put`/`get`, CallbackDispatcher `deliver`).
-/

namespace WebGuardAI

/-- The fusion weights `config['weights']` with keys `text`, `anomaly`,
`rules` (`threat-detection.py`, lines 80-84). -/
structure WeightConfig where
  text : ℚ
  anomaly : ℚ
  rules : ℚ

/-- The fused score computed by `ThreatDetectionModel.predict_threat`
(`threat-detection.py`, lines 80-84): the weighted sum of the three component
scores.  The source applies no clamping to this value. -/
def final_score (w : WeightConfig) (text_score anomaly_score rule_based_score : ℚ) : ℚ :=
  w.text * text_score + w.anomaly * anomaly_score + w.rules * rule_based_score

/-- The clamp function named by the spec's fusion formula
(`score = clamp(..., 0, 1)`).  Modelled from the spec's words, for comparison
with `final_score`; the source contains no such operation on the fused score. -/
def clamp (x lo hi : ℚ) : ℚ :=
  min (max x lo) hi

/-- `ThreatDetectionModel.get_threat_level` (`threat-detection.py`,
lines 168-177), verbatim threshold structure. -/
def get_threat_level (score : ℚ) : String :=
  if score < 0.2 then "LOW"
  else if score < 0.5 then "MEDIUM"
  else if score < 0.8 then "HIGH"
  else "CRITICAL"

/-- `np.mean` on a list of scores: sum divided by length. -/
def np_mean (xs : List ℚ) : ℚ :=
  xs.sum / (xs.length : ℚ)

/-- The population variance underlying `np.std` (numpy default `ddof=0`):
mean of squared deviations from the mean. -/
def np_variance (xs : List ℚ) : ℚ :=
  ((xs.map (fun x => (x - np_mean xs) ^ 2)).sum) / (xs.length : ℚ)

/-- `ThreatDetectionModel.calculate_confidence` (`threat-detection.py`,
lines 179-184): `1.0 - (np.std(scores) / np.mean(scores))`, with no guard of
any kind on the divisor.  When `np.mean scores = 0` the float division is a
division by zero and yields a non-finite value (NaN or ±inf), embedded as
`none`; otherwise the finite value `1 - √variance / mean` is returned. -/
noncomputable def calculate_confidence (scores : List ℚ) : Option ℝ :=
  if np_mean scores = 0 then none
  else some (1 - Real.sqrt ((np_variance scores : ℚ) : ℝ) / ((np_mean scores : ℚ) : ℝ))

/-- The dictionary returned by `ThreatDetectionModel.predict_threat`
(`threat-detection.py`, lines 86-97). -/
structure ThreatAnalysis where
  threat_score : ℚ
  component_scores : ℚ × ℚ × ℚ
  threat_level : String
  confidence : Option ℝ

/-- `ThreatDetectionModel.predict_threat` (`threat-detection.py`, lines 73-97)
after the three component models have produced their scores: the weighted
combination, the component breakdown, the categorical level of the fused
score, and the confidence over the three component scores. -/
noncomputable def predict_threat (w : WeightConfig)
    (text_score anomaly_score rule_based_score : ℚ) : ThreatAnalysis :=
  { threat_score := final_score w text_score anomaly_score rule_based_score
    component_scores := (text_score, anomaly_score, rule_based_score)
    threat_level := get_threat_level (final_score w text_score anomaly_score rule_based_score)
    confidence := calculate_confidence [text_score, anomaly_score, rule_based_score] }

/-- `analyze_url` (`api-backend.py`, lines 65-100), parametrised by its
collaborators: `crawl` is `ThreatDetectionSpider.crawl_single_url`, `extract`
is `FeatureExtractor.extract_features`, `predict` is
`ThreatDetectionModel.predict_threat`, and `persist` is
`store_analysis_results` (lines 148-163, the Snowflake INSERT).  The whole
body sits inside one `try`; any raised exception — including one raised by the
persistence step — reaches the blanket `except` and becomes
`HTTPException(status_code=500)`, embedded as `Except.error 500`. -/
def analyze_url {Page Feat V : Type}
    (crawl : String → Except String Page)
    (extract : Page → String → Except String Feat)
    (predict : Feat → V)
    (persist : String → Feat → V → Except String Unit)
    (url : String) : Except Nat V :=
  match crawl url with
  | .error _ => .error 500
  | .ok page =>
    match extract page url with
    | .error _ => .error 500
    | .ok feats =>
      let analysis := predict feats
      match persist url feats analysis with
      | .error _ => .error 500
      | .ok _ => .ok analysis

/-- A concrete crawl collaborator that always succeeds (for evaluation). -/
def crawl_ok : String → Except String Unit := fun _ => .ok ()

/-- A concrete extraction collaborator that always succeeds (for evaluation). -/
def extract_ok : Unit → String → Except String Unit := fun _ _ => .ok ()

/-- A concrete detection collaborator (for evaluation). -/
def predict_unit : Unit → Unit := fun _ => ()

/-- A concrete persistence collaborator whose Snowflake INSERT raises
(for evaluation). -/
def persist_fail : String → Unit → Unit → Except String Unit :=
  fun _ _ _ => .error "snowflake insert failed"

/-- A concrete persistence collaborator that succeeds (for evaluation). -/
def persist_ok : String → Unit → Unit → Except String Unit :=
  fun _ _ _ => .ok ()

/-- One entry of the `results` list built by `process_url_batch`
(`api-backend.py`, lines 120-131): either the analysis response for a URL or
the error record `{"url": ..., "error": ...}` appended by the `except` arm. -/
inductive UrlResult (E V : Type) where
  | verdict (v : V)
  | errRec (url : String) (err : E)
deriving DecidableEq

/-- The body of one iteration of the loop in `process_url_batch`
(`api-backend.py`, lines 122-131): `try: append(analyze(url))
except: append({url, error})`. -/
def url_result {E V : Type} (analyze : String → Except E V) (u : String) : UrlResult E V :=
  match analyze u with
  | .ok v => .verdict v
  | .error e => .errRec u e

/-- The accumulation loop of `process_url_batch` (`api-backend.py`,
lines 120-131): starts from `results = []` and appends one terminal entry per
URL, in order, never removing an entry. -/
def batch_loop {E V : Type} (analyze : String → Except E V) :
    List String → List (UrlResult E V) → List (UrlResult E V)
  | [], acc => acc
  | u :: rest, acc => batch_loop analyze rest (acc ++ [url_result analyze u])

/-- The process-wide job store: JobId keyed results (spec §4.4). -/
abbrev JobStore (R : Type) : Type := List (String × List R)

/-- Modelled from the spec: `store_batch_results` is called at
`api-backend.py` line 134 but defined nowhere in the repository; per the spec
it is the JobStore `put(job)` recording the finished results under the job
id. -/
def store_batch_results {R : Type} (store : JobStore R) (jobId : String)
    (results : List R) : JobStore R :=
  (jobId, results) :: store

/-- Modelled from the spec: `send_callback` is called at `api-backend.py`
line 138 but defined nowhere in the repository; per the spec it is
CallbackDispatcher `deliver(callbackUrl, jobId, results)`.  The embedding
returns the payload it delivers. -/
def send_callback {R : Type} (cb : String) (jobId : String) (results : List R) :
    String × String × List R :=
  (cb, jobId, results)

/-- `process_url_batch` (`api-backend.py`, lines 118-138): run the per-URL
loop from the empty results list, store the batch results under the job id,
and deliver the callback payload when a callback URL was provided.  Returns
the updated store and the delivered payload, if any. -/
def process_url_batch {E V : Type} (analyze : String → Except E V)
    (urls : List String) (jobId : String) (callback_url : Option String)
    (store : JobStore (UrlResult E V)) :
    JobStore (UrlResult E V) × Option (String × String × List (UrlResult E V)) :=
  let results := batch_loop analyze urls []
  (store_batch_results store jobId results,
   callback_url.map (fun cb => send_callback cb jobId results))

/-- Modelled from the spec: `load_batch_results` is called at
`api-backend.py` line 143 but defined nowhere in the repository; per the spec
it is the JobStore `get(jobId)`, returning the stored result collection when
the job id is present and nothing otherwise. -/
def load_batch_results {R : Type} (store : JobStore R) (jobId : String) :
    Option (List R) :=
  List.lookup jobId store

/-- `get_batch_results` (`api-backend.py`, lines 140-146): load the results
and run `if not results: raise HTTPException(404, "Job not found")`.  Python
truthiness makes both `None` (absent job) and `[]` (present but empty result
collection) falsy, so both report 404; otherwise the list is returned. -/
def get_batch_results {R : Type} (store : JobStore R) (jobId : String) :
    Except Nat (List R) :=
  match load_batch_results store jobId with
  | none => .error 404
  | some [] => .error 404
  | some (r :: rs) => .ok (r :: rs)

/-- `generate_job_id` (`api-backend.py`, lines 165-167):
`datetime.utcnow().strftime('%Y%m%d%H%M%S-') + str(hash(datetime.utcnow()))`.
The two clock readings are the arguments `t1`, `t2`; the external library
calls `strftime('%Y%m%d%H%M%S-')` and `str(hash(·))` are the parameters
`fmt` and `strHash`.  Strings are embedded as character lists. -/
def generate_job_id (fmt strHash : Nat → List Char) (t1 t2 : Nat) : List Char :=
  fmt t1 ++ strHash t2

/-- The job id observed by the i-th invocation of `generate_job_id` under a
given clock: each invocation reads the process clock twice and the id is a
deterministic function of those readings. -/
def job_id_at (fmt strHash : Nat → List Char) (clock : Nat → Nat × Nat)
    (i : Nat) : List Char :=
  generate_job_id fmt strHash (clock i).1 (clock i).2

/-- A concrete timestamp formatter (for evaluation): decimal digits followed
by the trailing dash of `'%Y%m%d%H%M%S-'`. -/
def fmt_digits (t : Nat) : List Char :=
  Nat.toDigits 10 t ++ ['-']

/-- A concrete hash-and-stringify (for evaluation): decimal digits of the
reading. -/
def hash_digits (t : Nat) : List Char :=
  Nat.toDigits 10 t

/-- A concrete per-URL analysis for evaluation: the spec §8 scenario of a
batch of 3 URLs where exactly one fetch fails. -/
def analyze_demo : String → Except String String :=
  fun u => if u = "http://b" then .error "fetch failed" else .ok ("verdict:" ++ u)

/-- One scheduling event of the batch loop: an analysis starts or finishes. -/
inductive BatchEvent where
  | start (u : String)
  | finish (u : String)
deriving DecidableEq

/-- The event trace of the loop in `process_url_batch` (`api-backend.py`,
lines 122-131): `result = await analyze_url(...)` suspends the loop until the
analysis of the current URL has completed, so each URL's analysis starts and
finishes before the next one starts.  No task is ever spawned for a later URL
while an earlier one is still running. -/
def batch_trace : List String → List BatchEvent
  | [] => []
  | u :: rest => BatchEvent.start u :: BatchEvent.finish u :: batch_trace rest

/-- Number of analyses in flight after a chronological run of events: starts
minus finishes. -/
def in_flight : List BatchEvent → Nat
  | [] => 0
  | BatchEvent.start _ :: es => in_flight es + 1
  | BatchEvent.finish _ :: es => in_flight es - 1

/-! ## Helper lemmas -/

theorem np_mean_zero_of_zeros : np_mean [(0 : ℚ), 0, 0] = 0 := by
  simp [np_mean]

theorem batch_loop_eq {E V : Type} (analyze : String → Except E V) :
    ∀ (urls : List String) (acc : List (UrlResult E V)),
      batch_loop analyze urls acc = acc ++ urls.map (url_result analyze)
  | [], acc => by simp [batch_loop]
  | u :: rest, acc => by
    rw [batch_loop, batch_loop_eq analyze rest]
    simp

theorem lookup_store_head {R : Type} (store : JobStore R) (jobId : String)
    (results : List R) :
    load_batch_results (store_batch_results store jobId results) jobId = some results := by
  simp [load_batch_results, store_batch_results, List.lookup]

/-! ## Claim theorems: fusion engine -/

/-- Claim C1.  The claim states that the `mean == 0` case (all three component
scores exactly zero) is special-cased so the fusion returns confidence `1.0`
exactly.  The code has no such special case: `calculate_confidence` always
divides by `np.mean(scores)`, which at `[0,0,0]` is a division by zero whose
float result is non-finite (`none`), never `1.0`.  This theorem evaluates the
code at the failing input, for every weight configuration. -/
theorem claim1_confidence_divzero_at_zero_signals (w : WeightConfig) :
    (predict_threat w 0 0 0).confidence = none ∧
    (predict_threat w 0 0 0).confidence ≠ some 1 := by
  have h : (predict_threat w 0 0 0).confidence = none := by
    simp [predict_threat, calculate_confidence, np_mean_zero_of_zeros]
  exact ⟨h, by rw [h]; exact fun hc => Option.noConfusion hc⟩

/-- Claim C1, witness: the theorem applied at a concrete weight
configuration. -/
theorem claim1_witness :
    (predict_threat ⟨0.5, 0.3, 0.2⟩ 0 0 0).confidence = none :=
  (claim1_confidence_divzero_at_zero_signals ⟨0.5, 0.3, 0.2⟩).1

/-- Claim C2, counterexample.  The claim states the fused score is the
weighted sum clamped into `[0,1]`, hence always in `[0,1]`.  With the weight
configuration `{text: 1, anomaly: 1, rules: 1}` (spec: weights "need not sum
to 1") and all component scores `1`, the code returns `3`: it differs from
the clamped value `1` and lies outside `[0,1]`. -/
theorem claim2_counterexample :
    (predict_threat ⟨1, 1, 1⟩ 1 1 1).threat_score = 3 ∧
    clamp ((predict_threat ⟨1, 1, 1⟩ 1 1 1).threat_score) 0 1 = 1 ∧
    (3 : ℚ) ≠ 1 ∧ ¬ (predict_threat ⟨1, 1, 1⟩ 1 1 1).threat_score ≤ 1 := by
  refine ⟨?_, ?_, by norm_num, ?_⟩ <;>
    norm_num [predict_threat, final_score, clamp]

/-- Claim C2, amended.  The fused score returned by `predict_threat` is the
raw weighted sum with no clamping; it lies in `[0,1]` under the additional
hypotheses that the weights are non-negative and sum to at most 1 and the
component scores lie in `[0,1]`. -/
theorem claim2_score_weighted_sum (w : WeightConfig) (t a r : ℚ) :
    (predict_threat w t a r).threat_score = w.text * t + w.anomaly * a + w.rules * r ∧
    (0 ≤ w.text → 0 ≤ w.anomaly → 0 ≤ w.rules →
      w.text + w.anomaly + w.rules ≤ 1 →
      0 ≤ t → t ≤ 1 → 0 ≤ a → a ≤ 1 → 0 ≤ r → r ≤ 1 →
      0 ≤ (predict_threat w t a r).threat_score ∧
        (predict_threat w t a r).threat_score ≤ 1) := by
  constructor
  · simp [predict_threat, final_score]
  · intro hwt hwa hwr hsum ht0 ht1 ha0 ha1 hr0 hr1
    simp only [predict_threat, final_score]
    constructor
    · have h1 := mul_nonneg hwt ht0
      have h2 := mul_nonneg hwa ha0
      have h3 := mul_nonneg hwr hr0
      linarith
    · have h1 : w.text * t ≤ w.text := mul_le_of_le_one_right hwt ht1
      have h2 : w.anomaly * a ≤ w.anomaly := mul_le_of_le_one_right hwa ha1
      have h3 : w.rules * r ≤ w.rules := mul_le_of_le_one_right hwr hr1
      linarith

/-- Claim C2, witness: the amended theorem applied at the spec §8 example
(`weights {0.5, 0.3, 0.2}`, signals `{0.8, 0.4, 0.1}`), score `0.42`. -/
theorem claim2_witness :
    (predict_threat ⟨0.5, 0.3, 0.2⟩ 0.8 0.4 0.1).threat_score
        = (0.5 : ℚ) * 0.8 + 0.3 * 0.4 + 0.2 * 0.1 ∧
    0 ≤ (predict_threat ⟨0.5, 0.3, 0.2⟩ 0.8 0.4 0.1).threat_score ∧
    (predict_threat ⟨0.5, 0.3, 0.2⟩ 0.8 0.4 0.1).threat_score ≤ 1 := by
  refine ⟨(claim2_score_weighted_sum ⟨0.5, 0.3, 0.2⟩ 0.8 0.4 0.1).1, ?_⟩
  exact (claim2_score_weighted_sum ⟨0.5, 0.3, 0.2⟩ 0.8 0.4 0.1).2
    (by norm_num) (by norm_num) (by norm_num) (by norm_num) (by norm_num)
    (by norm_num) (by norm_num) (by norm_num) (by norm_num) (by norm_num)

/-- Claim C6.  `get_threat_level` maps `s < 0.2` to LOW, `0.2 ≤ s < 0.5` to
MEDIUM, `0.5 ≤ s < 0.8` to HIGH and `0.8 ≤ s` to CRITICAL; in particular the
boundary score `0.2` yields MEDIUM (not LOW) and `0.8` yields CRITICAL (not
HIGH). -/
theorem claim6_threat_level_bands :
    (∀ s : ℚ, s < 0.2 → get_threat_level s = "LOW") ∧
    (∀ s : ℚ, 0.2 ≤ s → s < 0.5 → get_threat_level s = "MEDIUM") ∧
    (∀ s : ℚ, 0.5 ≤ s → s < 0.8 → get_threat_level s = "HIGH") ∧
    (∀ s : ℚ, 0.8 ≤ s → get_threat_level s = "CRITICAL") ∧
    get_threat_level 0.2 = "MEDIUM" ∧
    get_threat_level 0.8 = "CRITICAL" := by
  refine ⟨?_, ?_, ?_, ?_, ?_, ?_⟩
  · intro s h; simp [get_threat_level, h]
  · intro s h1 h2
    rw [get_threat_level, if_neg (by linarith), if_pos h2]
  · intro s h1 h2
    rw [get_threat_level, if_neg (by linarith), if_neg (by linarith), if_pos h2]
  · intro s h1
    rw [get_threat_level, if_neg (by linarith), if_neg (by linarith),
      if_neg (by linarith)]
  · rw [get_threat_level, if_neg (by norm_num), if_pos (by norm_num)]
  · rw [get_threat_level, if_neg (by norm_num), if_neg (by norm_num),
      if_neg (by norm_num)]

/-- Claim C6, witness: the band clauses applied at concrete scores. -/
theorem claim6_witness :
    get_threat_level 0.1 = "LOW" ∧ get_threat_level 0.42 = "MEDIUM" ∧
    get_threat_level 0.6 = "HIGH" ∧ get_threat_level 0.9 = "CRITICAL" :=
  ⟨claim6_threat_level_bands.1 0.1 (by norm_num),
   claim6_threat_level_bands.2.1 0.42 (by norm_num) (by norm_num),
   claim6_threat_level_bands.2.2.1 0.6 (by norm_num) (by norm_num),
   claim6_threat_level_bands.2.2.2.1 0.9 (by norm_num)⟩

/-- Claim C7.  Fusing a signal set whose three component scores all equal `v`
with non-negative weights summing to 1 yields fused score exactly `v`,
however the weight mass is distributed. -/
theorem claim7_equal_components_identity (w : WeightConfig) (v : ℚ)
    (hwt : 0 ≤ w.text) (hwa : 0 ≤ w.anomaly) (hwr : 0 ≤ w.rules)
    (hsum : w.text + w.anomaly + w.rules = 1) :
    (predict_threat w v v v).threat_score = v := by
  simp only [predict_threat, final_score]
  have h : w.text * v + w.anomaly * v + w.rules * v
      = (w.text + w.anomaly + w.rules) * v := by ring
  rw [h, hsum, one_mul]

/-- Claim C7, witness: the theorem applied at `v = 0.7` with an uneven weight
distribution summing to 1. -/
theorem claim7_witness :
    (predict_threat ⟨0.5, 0.3, 0.2⟩ 0.7 0.7 0.7).threat_score = 0.7 :=
  claim7_equal_components_identity ⟨0.5, 0.3, 0.2⟩ 0.7
    (by norm_num) (by norm_num) (by norm_num) (by norm_num)

/-! ## Claim theorems: single-URL analysis and batch pipeline -/

/-- Claim C3, counterexample.  The claim states a persistence failure never
makes the single-URL analysis fail.  In the code the persistence call sits
inside the same `try` as fetch and extraction, and the blanket `except`
converts any exception into `HTTPException(500)`: with collaborators whose
fetch and extraction succeed and whose persistence step raises, the analysis
returns error 500 instead of the verdict. -/
theorem claim3_counterexample :
    crawl_ok "http://example.com" = .ok () ∧
    extract_ok () "http://example.com" = .ok () ∧
    analyze_url crawl_ok extract_ok predict_unit persist_fail "http://example.com"
      = .error 500 :=
  ⟨rfl, rfl, rfl⟩

/-- Claim C3, amended.  When fetch and extraction succeed, the single-URL
analysis returns the verdict exactly when the persistence step also succeeds;
a persistence failure is propagated to the caller as HTTP 500 (it is not
swallowed). -/
theorem claim3_persistence_failure_propagates {Page Feat V : Type}
    (crawl : String → Except String Page)
    (extract : Page → String → Except String Feat)
    (predict : Feat → V)
    (persist : String → Feat → V → Except String Unit)
    (url : String) (page : Page) (feats : Feat)
    (hc : crawl url = .ok page) (he : extract page url = .ok feats) :
    (persist url feats (predict feats) = .ok () →
      analyze_url crawl extract predict persist url = .ok (predict feats)) ∧
    (∀ e, persist url feats (predict feats) = .error e →
      analyze_url crawl extract predict persist url = .error 500) := by
  constructor
  · intro hp
    simp [analyze_url, hc, he, hp]
  · intro e hp
    simp [analyze_url, hc, he, hp]

/-- Claim C3, witness: the amended theorem applied to concrete collaborators
whose persistence step succeeds. -/
theorem claim3_witness :
    analyze_url crawl_ok extract_ok predict_unit persist_ok "http://example.com"
      = .ok () :=
  (claim3_persistence_failure_propagates crawl_ok extract_ok predict_unit
    persist_ok "http://example.com" () () rfl rfl).1 rfl

/-- Claim C4.  A failure while analyzing one URL never aborts the batch: for
every per-URL analysis function (however many URLs it fails on) the loop
produces one terminal entry per URL, a failing URL is recorded as the error
record `{url, error}`, every successful URL still contributes its verdict,
and the finished results are stored under the job id (the job reaches its
completed state; no job-level failed state exists). -/
theorem claim4_single_failure_never_aborts_batch {E V : Type}
    (analyze : String → Except E V) (urls : List String) (jobId : String)
    (cb : Option String) (store : JobStore (UrlResult E V)) :
    (batch_loop analyze urls []).length = urls.length ∧
    (∀ u e, u ∈ urls → analyze u = .error e →
      UrlResult.errRec u e ∈ batch_loop analyze urls []) ∧
    (∀ u v, u ∈ urls → analyze u = .ok v →
      UrlResult.verdict v ∈ batch_loop analyze urls []) ∧
    load_batch_results (process_url_batch analyze urls jobId cb store).1 jobId
      = some (batch_loop analyze urls []) := by
  refine ⟨?_, ?_, ?_, ?_⟩
  · rw [batch_loop_eq]; simp
  · intro u e hu he
    rw [batch_loop_eq]
    simp only [List.nil_append, List.mem_map]
    exact ⟨u, hu, by simp [url_result, he]⟩
  · intro u v hu hv
    rw [batch_loop_eq]
    simp only [List.nil_append, List.mem_map]
    exact ⟨u, hu, by simp [url_result, hv]⟩
  · exact lookup_store_head store jobId (batch_loop analyze urls [])

/-- Claim C4, witness: the theorem applied to the spec §8 scenario — a batch
of 3 URLs where exactly one fetch fails — yielding the error record for the
failing URL, a verdict for a succeeding URL, and 3 stored results. -/
theorem claim4_witness :
    UrlResult.errRec "http://b" "fetch failed"
      ∈ batch_loop analyze_demo ["http://a", "http://b", "http://c"] [] ∧
    UrlResult.verdict "verdict:http://a"
      ∈ batch_loop analyze_demo ["http://a", "http://b", "http://c"] [] ∧
    (batch_loop analyze_demo ["http://a", "http://b", "http://c"] []).length = 3 :=
  ⟨(claim4_single_failure_never_aborts_batch analyze_demo
      ["http://a", "http://b", "http://c"] "job1" none []).2.1
      "http://b" "fetch failed" (by decide) rfl,
   (claim4_single_failure_never_aborts_batch analyze_demo
      ["http://a", "http://b", "http://c"] "job1" none []).2.2.1
      "http://a" "verdict:http://a" (by decide) rfl,
   ((claim4_single_failure_never_aborts_batch analyze_demo
      ["http://a", "http://b", "http://c"] "job1" none []).1).trans rfl⟩

/-- Claim C5.  At the moment a batch job is finalized (results stored and the
optional callback delivered), the results collection contains exactly one
terminal entry per submitted URL — the entry for the i-th URL is that URL's
outcome — so `|results| = N`; and results only accumulate while processing:
the results after `k+1` iterations extend the results after `k` iterations,
never removing an entry. -/
theorem claim5_one_result_per_url_at_completion {E V : Type}
    (analyze : String → Except E V) (urls : List String) (jobId : String)
    (cbu : String) (store : JobStore (UrlResult E V)) :
    batch_loop analyze urls [] = urls.map (url_result analyze) ∧
    (batch_loop analyze urls []).length = urls.length ∧
    (∀ k : Nat, ∃ ext, batch_loop analyze (urls.take (k + 1)) []
      = batch_loop analyze (urls.take k) [] ++ ext) ∧
    (process_url_batch analyze urls jobId (some cbu) store).2
      = some (send_callback cbu jobId (batch_loop analyze urls [])) ∧
    load_batch_results (process_url_batch analyze urls jobId (some cbu) store).1 jobId
      = some (batch_loop analyze urls []) := by
  refine ⟨?_, ?_, ?_, ?_, ?_⟩
  · rw [batch_loop_eq]; simp
  · rw [batch_loop_eq]; simp
  · intro k
    refine ⟨(urls[k]?.toList).map (url_result analyze), ?_⟩
    rw [batch_loop_eq, batch_loop_eq, List.take_succ]
    simp
  · rfl
  · exact lookup_store_head store jobId (batch_loop analyze urls [])

/-- Claim C5, witness: the theorem applied to the 3-URL demo batch — the
monotone-accumulation clause at `k = 1`, the stored length, and the callback
payload. -/
theorem claim5_witness :
    (∃ ext, batch_loop analyze_demo (["http://a", "http://b", "http://c"].take 2) []
      = batch_loop analyze_demo (["http://a", "http://b", "http://c"].take 1) [] ++ ext) ∧
    (batch_loop analyze_demo ["http://a", "http://b", "http://c"] []).length = 3 :=
  ⟨(claim5_one_result_per_url_at_completion analyze_demo
      ["http://a", "http://b", "http://c"] "job1" "http://cb" []).2.2.1 1,
   ((claim5_one_result_per_url_at_completion analyze_demo
      ["http://a", "http://b", "http://c"] "job1" "http://cb" []).2.1).trans rfl⟩

theorem in_flight_take_le_one (urls : List String) :
    ∀ k : Nat, in_flight ((batch_trace urls).take k) ≤ 1 := by
  induction urls with
  | nil => intro k; simp [batch_trace, in_flight]
  | cons u rest ih =>
    intro k
    match k with
    | 0 => simp [in_flight]
    | 1 => simp [batch_trace, in_flight]
    | (n + 2) =>
      have h := ih n
      simp only [batch_trace, List.take_succ_cons, in_flight]
      omega

/-! ## Claim theorems: job ids, scheduling and results endpoint -/

/-- Claim C8, counterexample.  The claim states the job-id generator returns
distinct strings for every two distinct invocations.  The generated id is a
deterministic function of the two `datetime.utcnow()` clock readings taken
inside the call (formatted by the fixed `strftime` pattern and hashed by the
process hash), so two distinct invocations whose clock readings coincide —
possible, since the clock has finite resolution — receive the identical id. -/
theorem claim8_counterexample :
    job_id_at fmt_digits hash_digits (fun _ => (5, 7)) 0
      = job_id_at fmt_digits hash_digits (fun _ => (5, 7)) 1 ∧
    (0 : Nat) ≠ 1 :=
  ⟨rfl, by decide⟩

/-- Claim C8, amended.  Two invocations of the job-id generator return
distinct id strings provided the stringified hashes of their second clock
readings differ (the fixed-width `'%Y%m%d%H%M%S-'` prefix keeps the
timestamp field the same length in both ids); uniqueness is therefore
conditional on the clock readings, not guaranteed across arbitrary
invocations. -/
theorem claim8_distinct_when_hash_differs (fmt strHash : Nat → List Char)
    (t1 t2 s1 s2 : Nat)
    (hlen : (fmt t1).length = (fmt s1).length)
    (hne : strHash t2 ≠ strHash s2) :
    generate_job_id fmt strHash t1 t2 ≠ generate_job_id fmt strHash s1 s2 := by
  intro h
  exact hne (List.append_inj_right h hlen)

/-- Claim C8, witness: the amended theorem applied at clock readings with
different hash strings. -/
theorem claim8_witness :
    generate_job_id fmt_digits hash_digits 5 7
      ≠ generate_job_id fmt_digits hash_digits 5 8 :=
  claim8_distinct_when_hash_differs fmt_digits hash_digits 5 7 5 8 rfl (by decide)

/-- Claim C9, counterexample.  The claim states the batch pipeline runs more
than one analysis concurrently when the concurrency limit (≥ 2) and the
remaining work allow.  For the concrete 2-URL batch, every cut of the
execution trace (the trace has 4 events, so cuts `0..4` are all of them) has
at most one analysis in flight: the loop never overlaps two analyses. -/
theorem claim9_counterexample :
    ((List.range 5).all fun k =>
        decide (in_flight ((batch_trace ["http://a", "http://b"]).take k) ≤ 1)) = true ∧
    (batch_trace ["http://a", "http://b"]).length = 4 := by
  exact ⟨by decide, rfl⟩

/-- Claim C9, amended.  The batch pipeline of `process_url_batch` processes
the URLs strictly sequentially: `await analyze_url(...)` completes the
current URL's analysis before the next iteration starts, so after every cut
of the execution trace at most one analysis is in flight.  No worker pool or
concurrency-limit parameter exists in the pipeline. -/
theorem claim9_at_most_one_in_flight (urls : List String) (k : Nat) :
    in_flight ((batch_trace urls).take k) ≤ 1 :=
  in_flight_take_le_one urls k

/-- Claim C9, witness: the amended theorem applied to a 2-URL batch at the
cut right after the first analysis started. -/
theorem claim9_witness :
    in_flight ((batch_trace ["http://a", "http://b"]).take 1) ≤ 1 :=
  claim9_at_most_one_in_flight ["http://a", "http://b"] 1

/-- Claim C10.  The results endpoint reports 404 exactly when the loaded
results value is absent or empty: a stored empty result collection — as
produced by submitting a batch of zero URLs — yields "Job not found" even
though the job was created, while a job id with at least one stored result
returns the results. -/
theorem claim10_not_found_iff_empty_or_absent (R : Type) (store : JobStore R)
    (jobId : String) :
    (get_batch_results store jobId = .error 404 ↔
      load_batch_results store jobId = none ∨
      load_batch_results store jobId = some []) ∧
    (∀ r rs, load_batch_results store jobId = some (r :: rs) →
      get_batch_results store jobId = .ok (r :: rs)) ∧
    (∀ (E V : Type) (analyze : String → Except E V) (cb : Option String)
      (st : JobStore (UrlResult E V)),
      get_batch_results (process_url_batch analyze [] jobId cb st).1 jobId
        = .error 404) := by
  refine ⟨?_, ?_, ?_⟩
  · unfold get_batch_results
    rcases hl : load_batch_results store jobId with _ | (_ | ⟨r, rs⟩) <;> simp
  · intro r rs hl
    unfold get_batch_results
    rw [hl]
  · intro E V analyze cb st
    have h : (process_url_batch analyze [] jobId cb st).1
        = store_batch_results st jobId (batch_loop analyze [] []) := rfl
    have hb : batch_loop analyze ([] : List String) [] = ([] : List (UrlResult E V)) := rfl
    unfold get_batch_results
    rw [h, hb, lookup_store_head st jobId []]

/-- Claim C10, witness: the endpoint applied to a store holding one
non-empty result collection, via the theorem's success clause. -/
theorem claim10_witness :
    get_batch_results [("job1", ["result1"])] "job1" = .ok ["result1"] :=
  (claim10_not_found_iff_empty_or_absent String [("job1", ["result1"])] "job1").2.1
    "result1" [] (by decide)

end WebGuardAI
